import Mathlib

/-!
# Verification of the PCDSequence playback component

A shallow embedding of `src/Components/PCDSequence/PCDSequence.cpp`
(namespace `Processors::PCDSequence`).  The component walks an ordered list
of PCD file paths with a cursor (`index`), keeps a single-slot cache per
record kind together with `previous_index`, and is driven by one periodic
handler `onLoadCloud` (the "tick") plus cheap trigger handlers that set
boolean flags.

External collaborators are abstracted: `Env.discover` is the result of
`findFiles` (`Utils::searchFiles` followed by the optional `std::sort`),
and `Env.load` is `pcl::io::loadPCDFile` for a given path and point type,
which can succeed, fail (return -1), or throw.

The C++ comparison `index >= files.size()` (line 178) converts the signed
`index` to an unsigned `size_t`, so a negative `index` compares as a huge
value; `files.size() - 1` on an empty vector wraps to `SIZE_MAX`, which cast
back to `int` is `-1`.  Both conversions are modelled explicitly below.
-/

namespace PCDSeq

/-- The three point-cloud record kinds served by the component, in the order
the load phase processes them (lines 220, 235, 250). -/
inductive Kind where
  | xyz
  | xyzrgb
  | xyzsift
deriving DecidableEq, Repr

/-- Decoded cloud contents are opaque to the playback logic; modelled as a
natural-number tag. -/
abbrev Cloud := Nat

/-- Outcome of one `pcl::io::loadPCDFile` call: decoded cloud, failure
(return value -1, line 224), or a thrown exception (caught at line 265). -/
inductive LoadResult where
  | ok (c : Cloud)
  | fail
  | exc
deriving DecidableEq, Repr

/-- External collaborators: file discovery (the list `findFiles` would place
in `files`, sort already applied) and the record loader. -/
structure Env where
  discover : List String
  load : String → Kind → LoadResult

/-- Configuration properties registered in the constructor (lines 20-29).
`sequence.directory`, `sequence.pattern` and `mode.sort` only influence
`Env.discover` and are not carried separately. -/
structure Config where
  prop_loop : Bool
  prop_auto_publish_cloud : Bool
  prop_auto_next_cloud : Bool
  prop_auto_prev_cloud : Bool
  prop_return_xyz : Bool
  prop_return_xyzrgb : Bool
  prop_return_xyzsift : Bool
deriving DecidableEq, Repr

/-- Mutable member state of the component: the discovered file list, the two
indices, the four request flags and the three cache slots. -/
structure PCDState where
  files : List String
  index : Int
  previous_index : Int
  next_cloud_flag : Bool
  prev_cloud_flag : Bool
  reload_sequence_flag : Bool
  publish_cloud_flag : Bool
  cloud_xyz : Cloud
  cloud_xyzrgb : Cloud
  cloud_xyzsift : Cloud
deriving DecidableEq, Repr

/-- Observable effects of one `onLoadCloud` tick: how many times the
end-of-sequence trigger was written, the per-kind emissions, whether
`findFiles` ran, and the `loadPCDFile` calls made (path and kind, in call
order). -/
structure TickOutput where
  eos : Nat
  out_xyz : Option Cloud
  out_xyzrgb : Option Cloud
  out_xyzsift : Option Cloud
  discovered : Bool
  load_attempts : List (String × Kind)
deriving DecidableEq, Repr

def emptyOutput : TickOutput :=
  { eos := 0, out_xyz := none, out_xyzrgb := none, out_xyzsift := none,
    discovered := false, load_attempts := [] }

def getCache (s : PCDState) : Kind → Cloud
  | .xyz => s.cloud_xyz
  | .xyzrgb => s.cloud_xyzrgb
  | .xyzsift => s.cloud_xyzsift

def setCache (s : PCDState) : Kind → Cloud → PCDState
  | .xyz, c => { s with cloud_xyz := c }
  | .xyzrgb, c => { s with cloud_xyzrgb := c }
  | .xyzsift, c => { s with cloud_xyzsift := c }

def getEmit (o : TickOutput) : Kind → Option Cloud
  | .xyz => o.out_xyz
  | .xyzrgb => o.out_xyzrgb
  | .xyzsift => o.out_xyzsift

def setEmit (o : TickOutput) : Kind → Cloud → TickOutput
  | .xyz, c => { o with out_xyz := some c }
  | .xyzrgb, c => { o with out_xyzrgb := some c }
  | .xyzsift, c => { o with out_xyzsift := some c }

/-- `onInit` (lines 93-111).  `publish_cloud_flag` is never initialised
there (a C++ indeterminate member), so it is a parameter. -/
def onInit (pub : Bool) : PCDState :=
  { files := [], index := 0, previous_index := -1,
    next_cloud_flag := false, prev_cloud_flag := false,
    reload_sequence_flag := true, publish_cloud_flag := pub,
    cloud_xyz := 0, cloud_xyzrgb := 0, cloud_xyzsift := 0 }

/-- `onLoadNextCloud` (lines 279-282); `onTriggeredLoadNextCloud` converges
to the same flag after consuming the trigger port. -/
def onLoadNextCloud (s : PCDState) : PCDState :=
  { s with next_cloud_flag := true }

/-- `onLoadPrevCloud` (lines 292-295). -/
def onLoadPrevCloud (s : PCDState) : PCDState :=
  { s with prev_cloud_flag := true }

/-- `onSequenceReload` (lines 298-301). -/
def onSequenceReload (s : PCDState) : PCDState :=
  { s with reload_sequence_flag := true }

/-- `onPublishCloud` (lines 118-122); `onTriggeredPublishCloud` converges to
the same flag. -/
def onPublishCloud (s : PCDState) : PCDState :=
  { s with publish_cloud_flag := true }

/-- The kinds whose `prop_return_*` property is enabled, in load order. -/
def enabledKinds (cfg : Config) : List Kind :=
  (if cfg.prop_return_xyz then [Kind.xyz] else []) ++
  (if cfg.prop_return_xyzrgb then [Kind.xyzrgb] else []) ++
  (if cfg.prop_return_xyzsift then [Kind.xyzsift] else [])

/-- The load phase (lines 220-263) restricted to the kind list still to be
processed.  Per kind: attempt `loadPCDFile files[index]`; on failure only a
warning is logged; on success `previous_index := index`, the kind's cache
slot is overwritten and the new cloud emitted.  A thrown exception aborts
the remaining kinds (single try/catch at lines 205/265). -/
def loadKinds (env : Env) (path : String) (idx : Int) :
    List Kind → PCDState → TickOutput → PCDState × TickOutput
  | [], s, o => (s, o)
  | k :: ks, s, o =>
    let o1 := { o with load_attempts := o.load_attempts ++ [(path, k)] }
    match env.load path k with
    | .exc => (s, o1)
    | .fail => loadKinds env path idx ks s o1
    | .ok c =>
      loadKinds env path idx ks (setCache { s with previous_index := idx } k c)
        (setEmit o1 k c)

/-- Cache-hit emission (lines 209-214): write the stored cloud on every
enabled stream. -/
def emitCaches (cfg : Config) (s : PCDState) (o : TickOutput) : TickOutput :=
  let o1 := if cfg.prop_return_xyz then { o with out_xyz := some s.cloud_xyz } else o
  let o2 := if cfg.prop_return_xyzrgb then { o1 with out_xyzrgb := some s.cloud_xyzrgb } else o1
  if cfg.prop_return_xyzsift then { o2 with out_xyzsift := some s.cloud_xyzsift } else o2

/-- Lines 192-267: the empty check, the publish gate (line 199), the clearing
of the publish flag (line 201), the cache check (line 206) and the load
phase.  Clearing the publish flag commutes with the cache check, which only
reads the two indices, so the cleared state is inlined in both branches. -/
def afterNav (cfg : Config) (env : Env) (s : PCDState) (o : TickOutput) :
    PCDState × TickOutput :=
  if s.files.isEmpty then (s, o)
  else if !cfg.prop_auto_publish_cloud && !s.publish_cloud_flag then (s, o)
  else if s.index = s.previous_index then
    ({ s with publish_cloud_flag := false },
      emitCaches cfg { s with publish_cloud_flag := false } o)
  else
    loadKinds env (s.files.getD s.index.toNat "") s.index (enabledKinds cfg)
      { s with publish_cloud_flag := false } o

/-- Lines 177-189: the upper bound check `index >= files.size()`.  The C++
comparison converts the signed index to `size_t`, so a negative index passes
the test; `files.size() - 1` is written back through an `int` cast, giving
`-1` on an empty list.  The `Bool` is the early-return flag. -/
def checkUpper (cfg : Config) (s : PCDState) (o : TickOutput) :
    PCDState × TickOutput × Bool :=
  if s.index < 0 ∨ (s.files.length : Int) ≤ s.index then
    if cfg.prop_loop then
      ({ s with index := 0 }, { o with eos := o.eos + 1 }, false)
    else
      ({ s with index := (s.files.length : Int) - 1 },
        { o with eos := o.eos + 1 }, true)
  else (s, o, false)

/-- Lines 151-157: the navigated index, incremented when auto-advance or the
advance request is on, decremented when auto-retreat or the retreat request
is on (both can apply in the same tick). -/
def navIndex (cfg : Config) (s : PCDState) : Int :=
  (if cfg.prop_auto_next_cloud || s.next_cloud_flag then s.index + 1 else s.index) -
    (if cfg.prop_auto_prev_cloud || s.prev_cloud_flag then 1 else 0)

/-- Lines 138-190: reload branch, first-tick branch, or navigation with the
two boundary checks.  The `Bool` is the early-return flag. -/
def navPhase (cfg : Config) (env : Env) (s : PCDState) :
    PCDState × TickOutput × Bool :=
  if s.reload_sequence_flag then
    ({ s with files := env.discover, index := 0, reload_sequence_flag := false },
      { emptyOutput with discovered := true }, false)
  else if s.previous_index = -1 then
    ({ s with index := 0 }, emptyOutput, false)
  else if navIndex cfg s < 0 then
    if cfg.prop_loop then
      checkUpper cfg
        { s with
            index := (s.files.length : Int) - 1
            next_cloud_flag := false
            prev_cloud_flag := false }
        { emptyOutput with eos := 1 }
    else
      ({ s with index := 0, next_cloud_flag := false, prev_cloud_flag := false },
        { emptyOutput with eos := 1 }, true)
  else
    checkUpper cfg
      { s with
          index := navIndex cfg s
          next_cloud_flag := false
          prev_cloud_flag := false }
      emptyOutput

/-- One `onLoadCloud` tick (lines 132-269). -/
def tick (cfg : Config) (env : Env) (s : PCDState) : PCDState × TickOutput :=
  match navPhase cfg env s with
  | (s1, o1, true) => (s1, o1)
  | (s1, o1, false) => afterNav cfg env s1 o1

/-- State after `n` consecutive ticks. -/
def ticks (cfg : Config) (env : Env) : Nat → PCDState → PCDState
  | 0, s => s
  | n + 1, s => (tick cfg env (ticks cfg env n s)).1

/-! ## Concrete scenarios

Instantiations of the configuration and the external collaborators used by
the concrete runs below (spec section 8, scenarios A, B, D and E). -/

/-- Scenario A configuration: loop off, auto-advance on, auto-publish on,
only the XYZ stream enabled. -/
def cfgA : Config :=
  { prop_loop := false, prop_auto_publish_cloud := true,
    prop_auto_next_cloud := true, prop_auto_prev_cloud := false,
    prop_return_xyz := true, prop_return_xyzrgb := false,
    prop_return_xyzsift := false }

/-- Scenario B configuration: scenario A with loop mode enabled. -/
def cfgB : Config := { cfgA with prop_loop := true }

/-- A directory with three decodable files f0, f1, f2. -/
def envA : Env :=
  { discover := ["f0", "f1", "f2"],
    load := fun p _ =>
      if p = "f0" then .ok 10
      else if p = "f1" then .ok 11
      else if p = "f2" then .ok 12
      else .fail }

/-- Two requested kinds, XYZ and XYZRGB. -/
def cfgTwoKinds : Config :=
  { cfgA with prop_return_xyzrgb := true }

/-- A loader whose XYZ decode of f0 throws while the XYZRGB decode of f0
would succeed. -/
def envExc : Env :=
  { discover := ["f0"],
    load := fun p k =>
      if p = "f0" then
        match k with
        | .xyz => .exc
        | .xyzrgb => .ok 5
        | .xyzsift => .fail
      else .fail }

/-- Manual navigation, two kinds, auto-publish on (scenario E shape). -/
def cfgMixed : Config :=
  { prop_loop := false, prop_auto_publish_cloud := true,
    prop_auto_next_cloud := false, prop_auto_prev_cloud := false,
    prop_return_xyz := true, prop_return_xyzrgb := true,
    prop_return_xyzsift := false }

/-- A loader where both kinds decode at f0 but only XYZRGB decodes at f1. -/
def envMixed : Env :=
  { discover := ["f0", "f1"],
    load := fun p k =>
      if p = "f0" then
        match k with
        | .xyz => .ok 10
        | .xyzrgb => .ok 20
        | .xyzsift => .fail
      else if p = "f1" then
        match k with
        | .xyz => .fail
        | .xyzrgb => .ok 21
        | .xyzsift => .fail
      else .fail }

/-- State after serving f0 and f1 under `cfgMixed`/`envMixed`: tick, advance
request, tick.  The XYZ decode of f1 failed, so `cloud_xyz` still holds the
f0 record while `previous_index = 1`. -/
def stMixed : PCDState :=
  (tick cfgMixed envMixed
    (onLoadNextCloud (tick cfgMixed envMixed (onInit false)).1)).1

/-- A directory holding a single decodable file f0. -/
def envOne : Env :=
  { discover := ["f0"],
    load := fun p _ => if p = "f0" then .ok 10 else .fail }

/-- The same directory after all files disappeared. -/
def envNone : Env :=
  { discover := [], load := fun _ _ => .fail }

/-- Reachable state with an empty Sequence but `previous_index = 0`: serve
f0, request a reload, reload against the now-empty directory. -/
def stEmptyServed : PCDState :=
  (tick cfgA envNone (onSequenceReload (tick cfgA envOne (onInit false)).1)).1

/-- Empty-directory state that has never served anything (first tick against
an empty directory). -/
def stEmptyFresh : PCDState :=
  (tick cfgA envNone (onInit false)).1

/-- Scenario D configuration: auto-publish off, auto-advance on. -/
def cfgD : Config := { cfgA with prop_auto_publish_cloud := false }

/-- Scenario D after one triggered publish: f0 was served, cursor at 0. -/
def stD1 : PCDState := (tick cfgD envOne (onPublishCloud (onInit false))).1

/-- Scenario D two ticks later: the cursor is clamped at the end. -/
def stD2 : PCDState := (tick cfgD envOne stD1).1

/-- Scenario D variant with manual navigation only (no auto-advance). -/
def cfgDManual : Config := { cfgD with prop_auto_next_cloud := false }

/-- Manual scenario D after one triggered publish. -/
def stDM1 : PCDState := (tick cfgDManual envOne (onPublishCloud (onInit false))).1

/-- Steady clamped state of scenario A: after four ticks the cursor sits at
the last index with everything served. -/
def stClamped : PCDState := ticks cfgA envA 4 (onInit false)

/-- Steady looping state: after one tick of scenario B the cursor is at 0
with f0 served. -/
def stLoop : PCDState := ticks cfgB envA 1 (onInit false)

/-- Steady state of scenario A after the first tick (cursor 0, f0 served). -/
def stSteady : PCDState := ticks cfgA envA 1 (onInit false)

/-- Steady cache-hit state under manual navigation: cursor 0, f0 served,
no pending requests. -/
def stHit : PCDState := (tick cfgMixed envMixed (onInit false)).1

/-! ## Basic lemmas about the building blocks -/

lemma setCache_basic (s : PCDState) (k : Kind) (c : Cloud) :
    (setCache s k c).files = s.files ∧
    (setCache s k c).index = s.index ∧
    (setCache s k c).next_cloud_flag = s.next_cloud_flag ∧
    (setCache s k c).prev_cloud_flag = s.prev_cloud_flag ∧
    (setCache s k c).reload_sequence_flag = s.reload_sequence_flag ∧
    (setCache s k c).publish_cloud_flag = s.publish_cloud_flag ∧
    (setCache s k c).previous_index = s.previous_index := by
  cases k <;> exact ⟨rfl, rfl, rfl, rfl, rfl, rfl, rfl⟩

lemma getCache_setCache (s : PCDState) (k0 : Kind) (c : Cloud) (k : Kind) :
    getCache (setCache s k0 c) k = if k = k0 then c else getCache s k := by
  cases k0 <;> cases k <;> simp [getCache, setCache]

lemma getCache_previdx (s : PCDState) (idx : Int) (k : Kind) :
    getCache { s with previous_index := idx } k = getCache s k := by
  cases k <;> rfl

lemma getCache_publish (s : PCDState) (b : Bool) (k : Kind) :
    getCache { s with publish_cloud_flag := b } k = getCache s k := by
  cases k <;> rfl

lemma setEmit_basic (o : TickOutput) (k : Kind) (c : Cloud) :
    (setEmit o k c).eos = o.eos ∧
    (setEmit o k c).discovered = o.discovered ∧
    (setEmit o k c).load_attempts = o.load_attempts := by
  cases k <;> exact ⟨rfl, rfl, rfl⟩

lemma loadKinds_state (env : Env) (path : String) (idx : Int) (ks : List Kind) :
    ∀ s o,
      (loadKinds env path idx ks s o).1.files = s.files ∧
      (loadKinds env path idx ks s o).1.index = s.index ∧
      (loadKinds env path idx ks s o).1.next_cloud_flag = s.next_cloud_flag ∧
      (loadKinds env path idx ks s o).1.prev_cloud_flag = s.prev_cloud_flag ∧
      (loadKinds env path idx ks s o).1.reload_sequence_flag = s.reload_sequence_flag ∧
      (loadKinds env path idx ks s o).1.publish_cloud_flag = s.publish_cloud_flag ∧
      ((loadKinds env path idx ks s o).1.previous_index = s.previous_index ∨
        (loadKinds env path idx ks s o).1.previous_index = idx) := by
  induction ks with
  | nil => intro s o; simp [loadKinds]
  | cons k ks ih =>
    intro s o
    simp only [loadKinds]
    cases h : env.load path k with
    | exc => simp
    | fail => simpa using ih s _
    | ok c =>
      obtain ⟨f1, f2, f3, f4, f5, f6, f7⟩ :=
        ih (setCache { s with previous_index := idx } k c) (setEmit _ k c)
      obtain ⟨g1, g2, g3, g4, g5, g6, g7⟩ :=
        setCache_basic { s with previous_index := idx } k c
      simp only []
      refine ⟨?_, ?_, ?_, ?_, ?_, ?_, ?_⟩
      · rw [f1, g1]
      · rw [f2, g2]
      · rw [f3, g3]
      · rw [f4, g4]
      · rw [f5, g5]
      · rw [f6, g6]
      · rcases f7 with h7 | h7
        · right; rw [h7, g7]
        · right; exact h7

lemma loadKinds_meta (env : Env) (path : String) (idx : Int) (ks : List Kind) :
    ∀ s o,
      (loadKinds env path idx ks s o).2.eos = o.eos ∧
      (loadKinds env path idx ks s o).2.discovered = o.discovered := by
  induction ks with
  | nil => intro s o; simp [loadKinds]
  | cons k ks ih =>
    intro s o
    simp only [loadKinds]
    cases h : env.load path k with
    | exc => simp
    | fail => simpa using ih s _
    | ok c =>
      obtain ⟨f1, f2⟩ := ih (setCache { s with previous_index := idx } k c)
        (setEmit { o with load_attempts := o.load_attempts ++ [(path, k)] } k c)
      obtain ⟨e1, e2, _⟩ :=
        setEmit_basic { o with load_attempts := o.load_attempts ++ [(path, k)] } k c
      constructor
      · rw [f1, e1]
      · rw [f2, e2]

lemma loadKinds_attempts_exists (env : Env) (path : String) (idx : Int)
    (ks : List Kind) : ∀ s o, ∃ t,
      (loadKinds env path idx ks s o).2.load_attempts = o.load_attempts ++ t := by
  induction ks with
  | nil => intro s o; exact ⟨[], by simp [loadKinds]⟩
  | cons k ks ih =>
    intro s o
    simp only [loadKinds]
    cases h : env.load path k with
    | exc => exact ⟨[(path, k)], by simp⟩
    | fail =>
      obtain ⟨t, ht⟩ := ih s { o with load_attempts := o.load_attempts ++ [(path, k)] }
      exact ⟨(path, k) :: t, by simp [ht]⟩
    | ok c =>
      obtain ⟨t, ht⟩ := ih (setCache { s with previous_index := idx } k c)
        (setEmit { o with load_attempts := o.load_attempts ++ [(path, k)] } k c)
      obtain ⟨_, _, e3⟩ :=
        setEmit_basic { o with load_attempts := o.load_attempts ++ [(path, k)] } k c
      refine ⟨(path, k) :: t, ?_⟩
      rw [ht, e3]
      simp

lemma loadKinds_attempts_noexc (env : Env) (path : String) (idx : Int)
    (ks : List Kind) (h : ∀ k ∈ ks, env.load path k ≠ .exc) : ∀ s o,
      (loadKinds env path idx ks s o).2.load_attempts =
        o.load_attempts ++ ks.map fun k => (path, k) := by
  induction ks with
  | nil => intro s o; simp [loadKinds]
  | cons k ks ih =>
    intro s o
    have hk : env.load path k ≠ .exc := h k (by simp)
    have hks : ∀ k0 ∈ ks, env.load path k0 ≠ .exc := fun k0 hk0 => h k0 (by simp [hk0])
    simp only [loadKinds]
    cases hl : env.load path k with
    | exc => exact absurd hl hk
    | fail =>
      rw [ih hks s { o with load_attempts := o.load_attempts ++ [(path, k)] }]
      simp
    | ok c =>
      obtain ⟨_, _, e3⟩ :=
        setEmit_basic { o with load_attempts := o.load_attempts ++ [(path, k)] } k c
      rw [ih hks (setCache { s with previous_index := idx } k c)
        (setEmit { o with load_attempts := o.load_attempts ++ [(path, k)] } k c), e3]
      simp

lemma loadKinds_cache (env : Env) (path : String) (idx : Int) (ks : List Kind) :
    ∀ s o k,
      getCache (loadKinds env path idx ks s o).1 k = getCache s k ∨
      ((path, k) ∈ (loadKinds env path idx ks s o).2.load_attempts ∧
        env.load path k = .ok (getCache (loadKinds env path idx ks s o).1 k)) := by
  induction ks with
  | nil => intro s o k; left; simp [loadKinds]
  | cons k0 ks ih =>
    intro s o k
    simp only [loadKinds]
    cases hl : env.load path k0 with
    | exc => left; rfl
    | fail =>
      rcases ih s { o with load_attempts := o.load_attempts ++ [(path, k0)] } k with
        h | ⟨hm, he⟩
      · left; exact h
      · right; exact ⟨hm, he⟩
    | ok c =>
      set s2 := setCache { s with previous_index := idx } k0 c with hs2
      set o2 := setEmit { o with load_attempts := o.load_attempts ++ [(path, k0)] } k0 c
        with ho2
      rcases ih s2 o2 k with h | ⟨hm, he⟩
      · by_cases hkk : k = k0
        · subst hkk
          right
          have hc : getCache s2 k = c := by
            rw [hs2, getCache_setCache]; simp
          obtain ⟨t, ht⟩ := loadKinds_attempts_exists env path idx ks s2 o2
          obtain ⟨_, _, e3⟩ :=
            setEmit_basic { o with load_attempts := o.load_attempts ++ [(path, k)] } k c
          constructor
          · rw [ht, ho2, e3]; simp
          · rw [h, hc, hl]
        · left
          rw [h, hs2, getCache_setCache, if_neg hkk, getCache_previdx]
      · right; exact ⟨hm, he⟩

lemma emitCaches_meta (cfg : Config) (s : PCDState) (o : TickOutput) :
    (emitCaches cfg s o).eos = o.eos ∧
    (emitCaches cfg s o).discovered = o.discovered ∧
    (emitCaches cfg s o).load_attempts = o.load_attempts := by
  unfold emitCaches
  split_ifs <;> exact ⟨rfl, rfl, rfl⟩

lemma mem_enabledKinds (cfg : Config) (k : Kind) :
    k ∈ enabledKinds cfg ↔
      (k = Kind.xyz ∧ cfg.prop_return_xyz = true) ∨
      (k = Kind.xyzrgb ∧ cfg.prop_return_xyzrgb = true) ∨
      (k = Kind.xyzsift ∧ cfg.prop_return_xyzsift = true) := by
  unfold enabledKinds
  split_ifs <;> cases k <;> simp_all

lemma emitCaches_getEmit (cfg : Config) (s : PCDState) (o : TickOutput)
    (k : Kind) (hk : k ∈ enabledKinds cfg) :
    getEmit (emitCaches cfg s o) k = some (getCache s k) := by
  rcases (mem_enabledKinds cfg k).1 hk with ⟨hkk, hc⟩ | ⟨hkk, hc⟩ | ⟨hkk, hc⟩ <;>
    subst hkk <;> unfold emitCaches <;> split_ifs <;>
    simp_all [getEmit, getCache]

/-! ## Lemmas about the two phases of a tick -/

lemma afterNav_empty (cfg : Config) (env : Env) (s : PCDState) (o : TickOutput)
    (h : s.files = []) : afterNav cfg env s o = (s, o) := by
  unfold afterNav
  rw [if_pos (by simp [h])]

lemma afterNav_fields (cfg : Config) (env : Env) (s : PCDState) (o : TickOutput) :
    (afterNav cfg env s o).1.files = s.files ∧
    (afterNav cfg env s o).1.index = s.index ∧
    (afterNav cfg env s o).1.next_cloud_flag = s.next_cloud_flag ∧
    (afterNav cfg env s o).1.prev_cloud_flag = s.prev_cloud_flag ∧
    (afterNav cfg env s o).1.reload_sequence_flag = s.reload_sequence_flag ∧
    ((afterNav cfg env s o).1.previous_index = s.previous_index ∨
      (afterNav cfg env s o).1.previous_index = s.index) := by
  unfold afterNav
  split_ifs with h1 h2 h3
  · exact ⟨rfl, rfl, rfl, rfl, rfl, Or.inl rfl⟩
  · exact ⟨rfl, rfl, rfl, rfl, rfl, Or.inl rfl⟩
  · exact ⟨rfl, rfl, rfl, rfl, rfl, Or.inl rfl⟩
  · obtain ⟨f1, f2, f3, f4, f5, _, f7⟩ :=
      loadKinds_state env (s.files.getD s.index.toNat "") s.index
        (enabledKinds cfg) { s with publish_cloud_flag := false } o
    exact ⟨f1, f2, f3, f4, f5, f7⟩

lemma afterNav_publish (cfg : Config) (env : Env) (s : PCDState) (o : TickOutput)
    (h : s.files ≠ []) :
    (afterNav cfg env s o).1.publish_cloud_flag = false := by
  unfold afterNav
  split_ifs with h1 h2 h3
  · exact absurd (List.isEmpty_iff.1 h1) h
  · simp only [Bool.and_eq_true, Bool.not_eq_true'] at h2
    exact h2.2
  · rfl
  · obtain ⟨_, _, _, _, _, f6, _⟩ :=
      loadKinds_state env (s.files.getD s.index.toNat "") s.index
        (enabledKinds cfg) { s with publish_cloud_flag := false } o
    exact f6

lemma afterNav_meta (cfg : Config) (env : Env) (s : PCDState) (o : TickOutput) :
    (afterNav cfg env s o).2.eos = o.eos ∧
    (afterNav cfg env s o).2.discovered = o.discovered := by
  unfold afterNav
  split_ifs with h1 h2 h3
  · exact ⟨rfl, rfl⟩
  · exact ⟨rfl, rfl⟩
  · obtain ⟨e1, e2, _⟩ := emitCaches_meta cfg { s with publish_cloud_flag := false } o
    exact ⟨e1, e2⟩
  · obtain ⟨f1, f2⟩ :=
      loadKinds_meta env (s.files.getD s.index.toNat "") s.index
        (enabledKinds cfg) { s with publish_cloud_flag := false } o
    exact ⟨f1, f2⟩

lemma afterNav_cache (cfg : Config) (env : Env) (s : PCDState) (o : TickOutput)
    (k : Kind) :
    getCache (afterNav cfg env s o).1 k = getCache s k ∨
    (∃ p, (p, k) ∈ (afterNav cfg env s o).2.load_attempts ∧
      env.load p k = .ok (getCache (afterNav cfg env s o).1 k)) := by
  unfold afterNav
  split_ifs with h1 h2 h3
  · left; rfl
  · left; rfl
  · left; exact getCache_publish s false k
  · rcases loadKinds_cache env (s.files.getD s.index.toNat "") s.index
      (enabledKinds cfg) { s with publish_cloud_flag := false } o k with
      h | ⟨hm, he⟩
    · left; rw [h, getCache_publish]
    · right; exact ⟨s.files.getD s.index.toNat "", hm, he⟩

lemma navPhase_publish (cfg : Config) (env : Env) (s : PCDState) :
    (navPhase cfg env s).1.publish_cloud_flag = s.publish_cloud_flag := by
  unfold navPhase checkUpper
  split_ifs <;> rfl

lemma navPhase_cache (cfg : Config) (env : Env) (s : PCDState) (k : Kind) :
    getCache (navPhase cfg env s).1 k = getCache s k := by
  unfold navPhase checkUpper
  split_ifs <;> cases k <;> rfl

lemma navPhase_out (cfg : Config) (env : Env) (s : PCDState) :
    (navPhase cfg env s).2.1.out_xyz = none ∧
    (navPhase cfg env s).2.1.out_xyzrgb = none ∧
    (navPhase cfg env s).2.1.out_xyzsift = none ∧
    (navPhase cfg env s).2.1.load_attempts = [] := by
  unfold navPhase checkUpper
  split_ifs <;> exact ⟨rfl, rfl, rfl, rfl⟩

lemma navPhase_bound (cfg : Config) (env : Env) (s : PCDState)
    (h : (navPhase cfg env s).1.files ≠ []) :
    0 ≤ (navPhase cfg env s).1.index ∧
      (navPhase cfg env s).1.index < (navPhase cfg env s).1.files.length := by
  have hlen : ∀ l : List String, l ≠ [] → 0 < l.length := fun l hl =>
    List.length_pos.2 hl
  unfold navPhase checkUpper at h ⊢
  split_ifs at h ⊢
  all_goals dsimp only at *
  all_goals have := hlen _ h
  all_goals constructor <;> omega


lemma tick_nav_fields (cfg : Config) (env : Env) (s : PCDState) :
    (tick cfg env s).1.files = (navPhase cfg env s).1.files ∧
    (tick cfg env s).1.index = (navPhase cfg env s).1.index ∧
    (tick cfg env s).1.next_cloud_flag = (navPhase cfg env s).1.next_cloud_flag ∧
    (tick cfg env s).1.prev_cloud_flag = (navPhase cfg env s).1.prev_cloud_flag ∧
    (tick cfg env s).1.reload_sequence_flag =
      (navPhase cfg env s).1.reload_sequence_flag := by
  rcases hnp : navPhase cfg env s with ⟨s1, o1, ab⟩
  cases ab
  · have ht : tick cfg env s = afterNav cfg env s1 o1 := by
      unfold tick
      rw [hnp]
    rw [ht]
    obtain ⟨f1, f2, f3, f4, f5, _⟩ := afterNav_fields cfg env s1 o1
    exact ⟨f1, f2, f3, f4, f5⟩
  · have ht : tick cfg env s = (s1, o1) := by
      unfold tick
      rw [hnp]
    rw [ht]
    exact ⟨rfl, rfl, rfl, rfl, rfl⟩

lemma navPhase_flags_steady (cfg : Config) (env : Env) (s : PCDState)
    (hr : s.reload_sequence_flag = false) (hpi : s.previous_index ≠ -1) :
    (navPhase cfg env s).1.next_cloud_flag = false ∧
    (navPhase cfg env s).1.prev_cloud_flag = false := by
  unfold navPhase checkUpper
  rw [if_neg (by simp [hr]), if_neg hpi]
  split_ifs <;> exact ⟨rfl, rfl⟩

lemma navPhase_reload_branch (cfg : Config) (env : Env) (s : PCDState)
    (hr : s.reload_sequence_flag = true) :
    navPhase cfg env s =
      ({ s with files := env.discover, index := 0, reload_sequence_flag := false },
        { emptyOutput with discovered := true }, false) := by
  unfold navPhase
  rw [if_pos hr]

/-! ## Claim theorems -/

/-- C6: for the Sequence [f0, f1, f2] with loop disabled, auto-advance on,
auto-publish on, starting right after initialisation (AwaitingFirstLoad,
with the reload flag set by onInit) and all decodes succeeding: tick 1
loads and emits f0 at index 0, tick 2 loads f1 at index 1, tick 3 loads f2
at index 2, and tick 4 fires the end-of-sequence signal once, clamps the
index to 2 and emits nothing. -/
theorem C6_scenarioA : ∀ pub : Bool,
    (tick cfgA envA (onInit pub)).2.out_xyz = some 10 ∧
    (tick cfgA envA (onInit pub)).2.load_attempts = [("f0", Kind.xyz)] ∧
    (tick cfgA envA (onInit pub)).2.eos = 0 ∧
    (ticks cfgA envA 1 (onInit pub)).index = 0 ∧
    (tick cfgA envA (ticks cfgA envA 1 (onInit pub))).2.out_xyz = some 11 ∧
    (tick cfgA envA (ticks cfgA envA 1 (onInit pub))).2.eos = 0 ∧
    (ticks cfgA envA 2 (onInit pub)).index = 1 ∧
    (tick cfgA envA (ticks cfgA envA 2 (onInit pub))).2.out_xyz = some 12 ∧
    (tick cfgA envA (ticks cfgA envA 2 (onInit pub))).2.eos = 0 ∧
    (ticks cfgA envA 3 (onInit pub)).index = 2 ∧
    (tick cfgA envA (ticks cfgA envA 3 (onInit pub))).2.eos = 1 ∧
    (tick cfgA envA (ticks cfgA envA 3 (onInit pub))).2.out_xyz = none ∧
    (tick cfgA envA (ticks cfgA envA 3 (onInit pub))).2.out_xyzrgb = none ∧
    (tick cfgA envA (ticks cfgA envA 3 (onInit pub))).2.out_xyzsift = none ∧
    (tick cfgA envA (ticks cfgA envA 3 (onInit pub))).2.load_attempts = [] ∧
    (ticks cfgA envA 4 (onInit pub)).index = 2 := by
  decide

/-- C9: the trigger handlers only set a boolean flag, so requesting twice
before a tick leaves the state machine in the same state as requesting
once, and the next tick behaves identically; this holds for the advance,
retreat, reload and publish requests. -/
theorem C9_idempotent_requests (s : PCDState) (cfg : Config) (env : Env) :
    onLoadNextCloud (onLoadNextCloud s) = onLoadNextCloud s ∧
    onLoadPrevCloud (onLoadPrevCloud s) = onLoadPrevCloud s ∧
    onSequenceReload (onSequenceReload s) = onSequenceReload s ∧
    onPublishCloud (onPublishCloud s) = onPublishCloud s ∧
    tick cfg env (onLoadNextCloud (onLoadNextCloud s)) =
      tick cfg env (onLoadNextCloud s) ∧
    tick cfg env (onLoadPrevCloud (onLoadPrevCloud s)) =
      tick cfg env (onLoadPrevCloud s) ∧
    tick cfg env (onSequenceReload (onSequenceReload s)) =
      tick cfg env (onSequenceReload s) ∧
    tick cfg env (onPublishCloud (onPublishCloud s)) =
      tick cfg env (onPublishCloud s) :=
  ⟨rfl, rfl, rfl, rfl, rfl, rfl, rfl, rfl⟩

/-- C10: onInit sets the reload flag, so the very first tick runs findFiles
and installs the discovered Sequence without any explicit reload request;
and any tick entered with previous_index = -1 leaves the cursor at 0, no
matter which flags (advance, retreat, reload) are pending. -/
theorem C10_first_tick_discovery :
    (∀ pub : Bool, (onInit pub).reload_sequence_flag = true) ∧
    (∀ (cfg : Config) (env : Env) (pub : Bool),
      (tick cfg env (onInit pub)).2.discovered = true ∧
      (tick cfg env (onInit pub)).1.files = env.discover) ∧
    ∀ (cfg : Config) (env : Env) (s : PCDState), s.previous_index = -1 →
      (tick cfg env s).1.index = 0 := by
  refine ⟨fun pub => rfl, fun cfg env pub => ?_, fun cfg env s hpi => ?_⟩
  · have ht : tick cfg env (onInit pub) =
        afterNav cfg env
          { onInit pub with
              files := env.discover
              index := 0
              reload_sequence_flag := false }
          { emptyOutput with discovered := true } := rfl
    rw [ht]
    exact ⟨(afterNav_meta _ _ _ _).2.trans rfl, (afterNav_fields _ _ _ _).1.trans rfl⟩
  · rcases Bool.eq_false_or_eq_true s.reload_sequence_flag with hr | hr
    · have hnav : navPhase cfg env s =
          ({ s with files := env.discover, index := 0, reload_sequence_flag := false },
            { emptyOutput with discovered := true }, false) := by
        unfold navPhase
        rw [if_pos hr]
      have ht : tick cfg env s =
          afterNav cfg env
            { s with files := env.discover, index := 0, reload_sequence_flag := false }
            { emptyOutput with discovered := true } := by
        unfold tick
        rw [hnav]
      rw [ht]
      exact (afterNav_fields _ _ _ _).2.1.trans rfl
    · have hnav : navPhase cfg env s = ({ s with index := 0 }, emptyOutput, false) := by
        unfold navPhase
        rw [if_neg (by simp [hr]), if_pos hpi]
      have ht : tick cfg env s = afterNav cfg env { s with index := 0 } emptyOutput := by
        unfold tick
        rw [hnav]
      rw [ht]
      exact (afterNav_fields _ _ _ _).2.1.trans rfl

/-- Witness for C10: in the concrete never-served empty-directory state the
next tick parks the cursor at 0. -/
theorem C10_witness : (tick cfgA envNone stEmptyFresh).1.index = 0 :=
  C10_first_tick_discovery.2.2 cfgA envNone stEmptyFresh (by decide)

/-- C1 counterexample: both XYZ and XYZRGB are requested and the XYZ decode
of f0 throws.  The claim predicts that the remaining kind XYZRGB is still
attempted and (since its decode would succeed with cloud 5) emitted; in
fact the exception aborts the whole load phase: XYZRGB is neither attempted
nor emitted. -/
theorem C1_counterexample :
    cfgTwoKinds.prop_return_xyzrgb = true ∧
    envExc.load "f0" Kind.xyz = .exc ∧
    envExc.load "f0" Kind.xyzrgb = .ok 5 ∧
    (tick cfgTwoKinds envExc (onInit false)).2.out_xyzrgb = none ∧
    ("f0", Kind.xyzrgb) ∉ (tick cfgTwoKinds envExc (onInit false)).2.load_attempts := by
  decide

/-- C2 counterexample: after serving f0 (both kinds decoded) and then f1
(XYZ decode failed, XYZRGB succeeded), previous_index is 1 but the XYZ
cache slot still holds the record decoded from f0 — not the record decoded
from Sequence[previous_index], whose XYZ decode fails — and the next
cache-hit tick re-emits that stale record. -/
theorem C2_counterexample :
    stMixed.previous_index = 1 ∧
    stMixed.files.getD stMixed.previous_index.toNat "" = "f1" ∧
    envMixed.load "f1" Kind.xyz = .fail ∧
    stMixed.cloud_xyz = 10 ∧
    envMixed.load "f0" Kind.xyz = .ok 10 ∧
    envMixed.load "f1" Kind.xyz ≠ .ok stMixed.cloud_xyz ∧
    (tick cfgMixed envMixed stMixed).2.out_xyz = some 10 ∧
    (tick cfgMixed envMixed stMixed).2.load_attempts = [] := by
  decide

/-- C3 counterexample: in scenario A the boundary is crossed at tick 4
(signal fired, cursor clamped to 2).  Tick 5 starts with the cursor still
clamped at length - 1 and fires the signal again, so the signal is not
fired exactly once per boundary crossing while the cursor stays clamped. -/
theorem C3_counterexample :
    (tick cfgA envA (ticks cfgA envA 3 (onInit false))).2.eos = 1 ∧
    (ticks cfgA envA 4 (onInit false)).index = 2 ∧
    (ticks cfgA envA 4 (onInit false)).files.length = 3 ∧
    (tick cfgA envA (ticks cfgA envA 4 (onInit false))).2.eos = 1 := by
  decide

/-- C4 counterexample: reachable state with an empty Sequence and
previous_index = 0 (f0 was served, then the directory was reloaded empty).
The claim predicts a no-op tick with no signal; in fact the tick navigates
(index becomes -1, outside any valid range) and fires the end-of-sequence
signal. -/
theorem C4_counterexample :
    stEmptyServed.files = [] ∧
    stEmptyServed.index = 0 ∧
    stEmptyServed.previous_index = 0 ∧
    (tick cfgA envNone stEmptyServed).1.index = -1 ∧
    (tick cfgA envNone stEmptyServed).2.eos = 1 := by
  decide

/-- C5 counterexample: with both the reload flag (set by onInit) and the
advance flag set before a tick, the tick takes the reload branch and does
not clear the advance flag, so a set request flag survives the next tick. -/
theorem C5_counterexample :
    (onLoadNextCloud (onInit false)).next_cloud_flag = true ∧
    (onLoadNextCloud (onInit false)).reload_sequence_flag = true ∧
    (tick cfgA envA (onLoadNextCloud (onInit false))).1.next_cloud_flag = true := by
  decide

/-- C7 counterexample: auto-publish off, Sequence [f0], f0 already served
and the cursor clamped at the end.  A publish trigger is supplied, yet the
next tick aborts at the boundary clamp before the publish gate: nothing is
loaded, nothing is emitted, and the publish flag is not even consumed. -/
theorem C7_counterexample :
    cfgD.prop_auto_publish_cloud = false ∧
    stD2.files = ["f0"] ∧
    stD2.index = 0 ∧
    (onPublishCloud stD2).publish_cloud_flag = true ∧
    (tick cfgD envOne (onPublishCloud stD2)).2.out_xyz = none ∧
    (tick cfgD envOne (onPublishCloud stD2)).2.out_xyzrgb = none ∧
    (tick cfgD envOne (onPublishCloud stD2)).2.out_xyzsift = none ∧
    (tick cfgD envOne (onPublishCloud stD2)).2.load_attempts = [] ∧
    (tick cfgD envOne (onPublishCloud stD2)).1.publish_cloud_flag = true := by
  decide

/-- C3 amended: with loop disabled and auto-advance on, the steady clamped
state (cursor at length - 1, nothing pending) is a fixed point of the tick
that fires the end-of-sequence signal on every tick, emitting and loading
nothing — the signal fires once per tick while the cursor stays clamped
(each tick increments past the end and re-clamps), not exactly once per
boundary crossing. -/
theorem C3_amended_clamped_refires (cfg : Config) (env : Env) (s : PCDState)
    (hnext : cfg.prop_auto_next_cloud = true)
    (hprev : cfg.prop_auto_prev_cloud = false)
    (hloop : cfg.prop_loop = false)
    (hr : s.reload_sequence_flag = false)
    (hpi : s.previous_index ≠ -1)
    (hnf : s.next_cloud_flag = false)
    (hpf : s.prev_cloud_flag = false)
    (hne : s.files ≠ [])
    (hidx : s.index = (s.files.length : Int) - 1) :
    (tick cfg env s).1 = s ∧
    (tick cfg env s).2.eos = 1 ∧
    (tick cfg env s).2.out_xyz = none ∧
    (tick cfg env s).2.out_xyzrgb = none ∧
    (tick cfg env s).2.out_xyzsift = none ∧
    (tick cfg env s).2.load_attempts = [] ∧
    ∀ n, ticks cfg env n s = s := by
  have hl : 0 < s.files.length := List.length_pos.2 hne
  have hni : navIndex cfg s = s.index + 1 := by
    unfold navIndex
    rw [hnext, hprev, hpf]
    simp
  have hnav : navPhase cfg env s =
      ({ s with
          index := (s.files.length : Int) - 1
          next_cloud_flag := false
          prev_cloud_flag := false },
        { emptyOutput with eos := 1 }, true) := by
    unfold navPhase
    rw [if_neg (by simp [hr]), if_neg hpi, if_neg (by rw [hni, hidx]; omega), hni]
    unfold checkUpper
    rw [if_pos (by dsimp only; rw [hidx]; right; omega), if_neg (by simp [hloop])]
    rfl
  have hsfix : ({ s with
      index := (s.files.length : Int) - 1
      next_cloud_flag := false
      prev_cloud_flag := false } : PCDState) = s := by
    cases s with
    | mk f i pi nf pf rl pub a b c =>
      dsimp only at hidx hnf hpf ⊢
      rw [hidx, hnf, hpf]
  have ht : tick cfg env s =
      (s, { emptyOutput with eos := 1 }) := by
    unfold tick
    rw [hnav, hsfix]
  refine ⟨by rw [ht], by rw [ht], by rw [ht]; rfl, by rw [ht]; rfl, by rw [ht]; rfl,
    by rw [ht]; rfl, ?_⟩
  intro n
  induction n with
  | zero => rfl
  | succ n ih =>
    show (tick cfg env (ticks cfg env n s)).1 = s
    rw [ih, ht]

/-- Witness for C3: the clamped state of scenario A after four ticks is such
a fixed point, so its next tick fires the signal again. -/
theorem C3_witness :
    (tick cfgA envA stClamped).1 = stClamped ∧
    (tick cfgA envA stClamped).2.eos = 1 :=
  have h := C3_amended_clamped_refires cfgA envA stClamped rfl rfl rfl
    (by decide) (by decide) (by decide) (by decide) (by decide) (by decide)
  ⟨h.1, h.2.1⟩

/-- C4 amended: after any tick that leaves the Sequence non-empty the cursor
satisfies 0 ≤ index < length.  When the Sequence is empty a tick is a
cursor no-op only in the never-served case (previous_index = -1, no reload
pending): it parks the cursor at 0 and produces no signal and no output.
(The counterexample shows that with previous_index different from -1 an
empty-sequence tick still navigates and signals.) -/
theorem C4_amended_bounds (cfg : Config) (env : Env) (s : PCDState) :
    ((tick cfg env s).1.files ≠ [] →
      0 ≤ (tick cfg env s).1.index ∧
        (tick cfg env s).1.index < (tick cfg env s).1.files.length) ∧
    (s.files = [] → s.previous_index = -1 → s.reload_sequence_flag = false →
      (tick cfg env s).1 = { s with index := 0 } ∧
      (tick cfg env s).2 = emptyOutput) := by
  constructor
  · intro hne
    obtain ⟨f1, f2, _, _, _⟩ := tick_nav_fields cfg env s
    rw [f1] at hne
    obtain ⟨b1, b2⟩ := navPhase_bound cfg env s hne
    rw [f1, f2]
    exact ⟨b1, b2⟩
  · intro hemp hpi hr
    have hnav : navPhase cfg env s = ({ s with index := 0 }, emptyOutput, false) := by
      unfold navPhase
      rw [if_neg (by simp [hr]), if_pos hpi]
    have ht : tick cfg env s = afterNav cfg env { s with index := 0 } emptyOutput := by
      unfold tick
      rw [hnav]
    rw [ht, afterNav_empty cfg env { s with index := 0 } emptyOutput (by simpa using hemp)]
    exact ⟨rfl, rfl⟩

/-- Witness for C4: the bound holds after a steady tick of scenario A, and
an empty never-served tick parks the cursor at 0 with no output. -/
theorem C4_witness :
    (0 ≤ (tick cfgA envA stSteady).1.index ∧
      (tick cfgA envA stSteady).1.index < (tick cfgA envA stSteady).1.files.length) ∧
    ((tick cfgA envNone stEmptyFresh).1 = { stEmptyFresh with index := 0 } ∧
      (tick cfgA envNone stEmptyFresh).2 = emptyOutput) :=
  ⟨(C4_amended_bounds cfgA envA stSteady).1 (by decide),
    (C4_amended_bounds cfgA envNone stEmptyFresh).2 (by decide) (by decide) (by decide)⟩

/-- C5 amended: the reload flag is cleared exactly by the reload branch; the
advance and retreat flags are cleared only by ticks that take the steady
navigation branch and survive a reload tick unchanged; the publish flag
survives every early-returning tick (boundary-clamp abort and
empty-sequence abort) and is cleared only by ticks that get past the
empty-sequence check (in the publish-gate abort it was already clear). -/
theorem C5_amended_flag_clearing (cfg : Config) (env : Env) (s : PCDState) :
    (s.reload_sequence_flag = false → s.previous_index ≠ -1 →
      (tick cfg env s).1.next_cloud_flag = false ∧
      (tick cfg env s).1.prev_cloud_flag = false) ∧
    (s.reload_sequence_flag = true →
      (tick cfg env s).1.reload_sequence_flag = false ∧
      (tick cfg env s).1.next_cloud_flag = s.next_cloud_flag ∧
      (tick cfg env s).1.prev_cloud_flag = s.prev_cloud_flag) ∧
    (∀ s1 o1, navPhase cfg env s = (s1, o1, true) →
      (tick cfg env s).1.publish_cloud_flag = s.publish_cloud_flag) ∧
    (∀ s1 o1, navPhase cfg env s = (s1, o1, false) → s1.files ≠ [] →
      (tick cfg env s).1.publish_cloud_flag = false) ∧
    (∀ s1 o1, navPhase cfg env s = (s1, o1, false) → s1.files = [] →
      (tick cfg env s).1.publish_cloud_flag = s.publish_cloud_flag) := by
  refine ⟨?_, ?_, ?_, ?_, ?_⟩
  · intro hr hpi
    obtain ⟨_, _, f3, f4, _⟩ := tick_nav_fields cfg env s
    obtain ⟨g1, g2⟩ := navPhase_flags_steady cfg env s hr hpi
    exact ⟨f3.trans g1, f4.trans g2⟩
  · intro hr
    obtain ⟨_, _, f3, f4, f5⟩ := tick_nav_fields cfg env s
    rw [navPhase_reload_branch cfg env s hr] at f3 f4 f5
    exact ⟨f5, f3, f4⟩
  · intro s1 o1 hnp
    have ht : tick cfg env s = (s1, o1) := by
      unfold tick
      rw [hnp]
    have hp := navPhase_publish cfg env s
    rw [hnp] at hp
    rw [ht]
    exact hp
  · intro s1 o1 hnp hne
    have ht : tick cfg env s = afterNav cfg env s1 o1 := by
      unfold tick
      rw [hnp]
    rw [ht]
    exact afterNav_publish cfg env s1 o1 hne
  · intro s1 o1 hnp hemp
    have ht : tick cfg env s = afterNav cfg env s1 o1 := by
      unfold tick
      rw [hnp]
    have hp := navPhase_publish cfg env s
    rw [hnp] at hp
    rw [ht, afterNav_empty cfg env s1 o1 hemp]
    exact hp

/-- Witness for C5: a steady tick of scenario A leaves both navigation
request flags clear, and a reload tick clears the reload flag. -/
theorem C5_witness :
    ((tick cfgA envA stSteady).1.next_cloud_flag = false ∧
      (tick cfgA envA stSteady).1.prev_cloud_flag = false) ∧
    (tick cfgA envA (onInit false)).1.reload_sequence_flag = false :=
  ⟨(C5_amended_flag_clearing cfgA envA stSteady).1 (by decide) (by decide),
    ((C5_amended_flag_clearing cfgA envA (onInit false)).2.1 (by decide)).1⟩

lemma steadyLoop_step (cfg : Config) (env : Env) (s : PCDState)
    (hnext : cfg.prop_auto_next_cloud = true)
    (hprev : cfg.prop_auto_prev_cloud = false)
    (hloop : cfg.prop_loop = true)
    (hr : s.reload_sequence_flag = false)
    (hpi : s.previous_index ≠ -1)
    (_hnf : s.next_cloud_flag = false)
    (hpf : s.prev_cloud_flag = false)
    (h0 : 0 ≤ s.index)
    (h1 : s.index < s.files.length) :
    (tick cfg env s).1.files = s.files ∧
    (tick cfg env s).1.index = (s.index + 1) % (s.files.length : Int) ∧
    (tick cfg env s).1.reload_sequence_flag = false ∧
    (tick cfg env s).1.previous_index ≠ -1 ∧
    (tick cfg env s).1.next_cloud_flag = false ∧
    (tick cfg env s).1.prev_cloud_flag = false := by
  have hni : navIndex cfg s = s.index + 1 := by
    unfold navIndex
    rw [hnext, hprev, hpf]
    simp
  obtain ⟨f1, f2, f3, f4, f5⟩ := tick_nav_fields cfg env s
  rcases lt_or_le (s.index + 1) (s.files.length : Int) with hlt | hge
  · have hnav : navPhase cfg env s =
        ({ s with
            index := s.index + 1
            next_cloud_flag := false
            prev_cloud_flag := false }, emptyOutput, false) := by
      unfold navPhase
      rw [if_neg (by simp [hr]), if_neg hpi, if_neg (by rw [hni]; omega), hni]
      unfold checkUpper
      rw [if_neg (by dsimp only; omega)]
    have ht : tick cfg env s =
        afterNav cfg env
          { s with
              index := s.index + 1
              next_cloud_flag := false
              prev_cloud_flag := false } emptyOutput := by
      unfold tick
      rw [hnav]
    obtain ⟨a1, a2, a3, a4, a5, a6⟩ :=
      afterNav_fields cfg env
        ({ s with
            index := s.index + 1
            next_cloud_flag := false
            prev_cloud_flag := false }) emptyOutput
    refine ⟨by rw [ht, a1], ?_, by rw [ht, a5]; exact hr, ?_, by rw [ht, a3], by rw [ht, a4]⟩
    · rw [ht, a2]
      show s.index + 1 = (s.index + 1) % (s.files.length : Int)
      rw [Int.emod_eq_of_lt (by omega) hlt]
    · rw [ht]
      rcases a6 with h | h
      · rw [h]; exact hpi
      · rw [h]; dsimp only; omega
  · have heq : s.index + 1 = (s.files.length : Int) := by omega
    have hnav : navPhase cfg env s =
        ({ s with
            index := 0
            next_cloud_flag := false
            prev_cloud_flag := false }, { emptyOutput with eos := 1 }, false) := by
      unfold navPhase
      rw [if_neg (by simp [hr]), if_neg hpi, if_neg (by rw [hni]; omega), hni]
      unfold checkUpper
      rw [if_pos (by dsimp only; omega), if_pos hloop]
      rfl
    have ht : tick cfg env s =
        afterNav cfg env
          { s with
              index := 0
              next_cloud_flag := false
              prev_cloud_flag := false } { emptyOutput with eos := 1 } := by
      unfold tick
      rw [hnav]
    obtain ⟨a1, a2, a3, a4, a5, a6⟩ :=
      afterNav_fields cfg env
        ({ s with
            index := 0
            next_cloud_flag := false
            prev_cloud_flag := false }) { emptyOutput with eos := 1 }
    refine ⟨by rw [ht, a1], ?_, by rw [ht, a5]; exact hr, ?_, by rw [ht, a3], by rw [ht, a4]⟩
    · rw [ht, a2, heq]
      show (0 : Int) = (s.files.length : Int) % (s.files.length : Int)
      rw [Int.emod_self]
    · rw [ht]
      rcases a6 with h | h
      · rw [h]; exact hpi
      · rw [h]; dsimp only; omega

lemma steadyLoop_iter (cfg : Config) (env : Env) (s : PCDState)
    (hnext : cfg.prop_auto_next_cloud = true)
    (hprev : cfg.prop_auto_prev_cloud = false)
    (hloop : cfg.prop_loop = true)
    (hr : s.reload_sequence_flag = false)
    (hpi : s.previous_index ≠ -1)
    (hnf : s.next_cloud_flag = false)
    (hpf : s.prev_cloud_flag = false)
    (h0 : 0 ≤ s.index)
    (h1 : s.index < s.files.length) : ∀ n : Nat,
    (ticks cfg env n s).files = s.files ∧
    (ticks cfg env n s).index = (s.index + n) % (s.files.length : Int) ∧
    (ticks cfg env n s).reload_sequence_flag = false ∧
    (ticks cfg env n s).previous_index ≠ -1 ∧
    (ticks cfg env n s).next_cloud_flag = false ∧
    (ticks cfg env n s).prev_cloud_flag = false := by
  have hlen : (0 : Int) < (s.files.length : Int) := by
    omega
  intro n
  induction n with
  | zero =>
    refine ⟨rfl, ?_, hr, hpi, hnf, hpf⟩
    show s.index = (s.index + (0 : Nat)) % (s.files.length : Int)
    rw [Int.emod_eq_of_lt (by omega) (by omega)]
    omega
  | succ n ih =>
    obtain ⟨i1, i2, i3, i4, i5, i6⟩ := ih
    have hb0 : 0 ≤ (ticks cfg env n s).index := by
      rw [i2]
      exact Int.emod_nonneg _ (by omega)
    have hb1 : (ticks cfg env n s).index < ((ticks cfg env n s).files.length : Int) := by
      rw [i2, i1]
      exact Int.emod_lt_of_pos _ hlen
    obtain ⟨t1, t2, t3, t4, t5, t6⟩ :=
      steadyLoop_step cfg env (ticks cfg env n s) hnext hprev hloop i3 i4 i5 i6 hb0
        (by exact_mod_cast hb1)
    have hst : ticks cfg env (n + 1) s = (tick cfg env (ticks cfg env n s)).1 := rfl
    rw [hst]
    refine ⟨t1.trans i1, ?_, t3, t4, t5, t6⟩
    rw [t2, i2, i1]
    rw [Int.emod_add_emod]
    congr 1
    push_cast
    ring

/-- C8: in the steady looping state (loop on, auto-advance on, nothing
pending) the cursor index is periodic in the number of ticks with period
length(Sequence); and concretely, in scenario B ([f0, f1, f2] with loop
enabled) the tick after index 2 fires the end-of-sequence signal, wraps the
cursor to 0 and loads and emits f0. -/
theorem C8_loop_periodic :
    (∀ (cfg : Config) (env : Env) (s : PCDState),
      cfg.prop_auto_next_cloud = true → cfg.prop_auto_prev_cloud = false →
      cfg.prop_loop = true → s.reload_sequence_flag = false →
      s.previous_index ≠ -1 → s.next_cloud_flag = false →
      s.prev_cloud_flag = false → 0 ≤ s.index → s.index < s.files.length →
      ∀ n : Nat, (ticks cfg env (n + s.files.length) s).index =
        (ticks cfg env n s).index) ∧
    ((tick cfgB envA (ticks cfgB envA 3 (onInit false))).2.eos = 1 ∧
      (ticks cfgB envA 3 (onInit false)).index = 2 ∧
      (ticks cfgB envA 4 (onInit false)).index = 0 ∧
      (tick cfgB envA (ticks cfgB envA 3 (onInit false))).2.out_xyz = some 10) := by
  constructor
  · intro cfg env s hnext hprev hloop hr hpi hnf hpf h0 h1 n
    obtain ⟨_, i2, _, _, _, _⟩ :=
      steadyLoop_iter cfg env s hnext hprev hloop hr hpi hnf hpf h0 h1
        (n + s.files.length)
    obtain ⟨_, j2, _, _, _, _⟩ :=
      steadyLoop_iter cfg env s hnext hprev hloop hr hpi hnf hpf h0 h1 n
    rw [i2, j2]
    push_cast
    rw [← add_assoc]
    simp [Int.add_mul_emod_self_left]
  · exact ⟨by decide, by decide, by decide, by decide⟩

/-- Witness for C8: in the steady looping state of scenario B, three more
ticks (the Sequence length) return the cursor to where it was. -/
theorem C8_witness :
    (ticks cfgB envA (0 + stLoop.files.length) stLoop).index =
      (ticks cfgB envA 0 stLoop).index :=
  C8_loop_periodic.1 cfgB envA stLoop rfl rfl rfl (by decide) (by decide)
    (by decide) (by decide) (by decide) (by decide) 0

/-- C2 amended: whenever a tick reaches the cache check with
index = previous_index (here: a steady net-zero-movement tick on an
in-range cursor that passes the publish gate), the cached record set is
re-emitted for every requested kind, no load is performed and the cache is
untouched.  However a kind's cache slot is only guaranteed to hold a value
that this kind's decode produced at the tick that last overwrote it: a
slot changes only when an attempted decode of that kind succeeded with
exactly that value, so after a tick in which one kind failed while another
succeeded, previous_index moves on while the failed kind's slot keeps its
older record. -/
theorem C2_amended_cache :
    (∀ (cfg : Config) (env : Env) (s : PCDState),
      s.reload_sequence_flag = false → s.previous_index ≠ -1 →
      (cfg.prop_auto_next_cloud || s.next_cloud_flag) =
        (cfg.prop_auto_prev_cloud || s.prev_cloud_flag) →
      0 ≤ s.index → s.index < s.files.length →
      s.index = s.previous_index →
      cfg.prop_auto_publish_cloud = true ∨ s.publish_cloud_flag = true →
      (tick cfg env s).2.load_attempts = [] ∧
      (∀ k, k ∈ enabledKinds cfg → getEmit (tick cfg env s).2 k = some (getCache s k)) ∧
      (∀ k, getCache (tick cfg env s).1 k = getCache s k)) ∧
    (∀ (cfg : Config) (env : Env) (s : PCDState) (k : Kind),
      getCache (tick cfg env s).1 k = getCache s k ∨
      ∃ p, (p, k) ∈ (tick cfg env s).2.load_attempts ∧
        env.load p k = .ok (getCache (tick cfg env s).1 k)) := by
  constructor
  · intro cfg env s hr hpi hnet h0 h1 hhit hgate
    have hni : navIndex cfg s = s.index := by
      unfold navIndex
      rw [← hnet]
      cases hb : (cfg.prop_auto_next_cloud || s.next_cloud_flag) <;> simp
    have hnav : navPhase cfg env s =
        ({ s with index := s.index, next_cloud_flag := false, prev_cloud_flag := false },
          emptyOutput, false) := by
      unfold navPhase
      rw [if_neg (by simp [hr]), if_neg hpi, if_neg (by rw [hni]; omega), hni]
      unfold checkUpper
      rw [if_neg (by dsimp only; omega)]
    have ht0 : tick cfg env s =
        afterNav cfg env
          { s with index := s.index, next_cloud_flag := false, prev_cloud_flag := false }
          emptyOutput := by
      unfold tick
      rw [hnav]
    have ht : tick cfg env s =
        ({ s with
            index := s.index
            next_cloud_flag := false
            prev_cloud_flag := false
            publish_cloud_flag := false },
          emitCaches cfg
            { s with
                index := s.index
                next_cloud_flag := false
                prev_cloud_flag := false
                publish_cloud_flag := false } emptyOutput) := by
      rw [ht0]
      unfold afterNav
      rw [if_neg (by simp only [List.isEmpty_iff]; exact List.length_pos.1 (by omega)),
        if_neg (by rcases hgate with h | h <;> simp [h]), if_pos (by dsimp only; exact hhit)]
    refine ⟨?_, ?_, ?_⟩
    · rw [ht]
      exact (emitCaches_meta cfg _ emptyOutput).2.2
    · intro k hk
      rw [ht]
      have hg := emitCaches_getEmit cfg
        ({ s with
            index := s.index
            next_cloud_flag := false
            prev_cloud_flag := false
            publish_cloud_flag := false }) emptyOutput k hk
      rw [hg]
      congr 1
    · intro k
      rw [ht]
      cases k <;> rfl
  · intro cfg env s k
    rcases hnp : navPhase cfg env s with ⟨s1, o1, ab⟩
    have hc1 : getCache s1 k = getCache s k := by
      have hx := navPhase_cache cfg env s k
      rw [hnp] at hx
      exact hx
    cases ab
    · have ht : tick cfg env s = afterNav cfg env s1 o1 := by
        unfold tick
        rw [hnp]
      rw [ht]
      rcases afterNav_cache cfg env s1 o1 k with h | ⟨p, hm, he⟩
      · left
        rw [h]
        exact hc1
      · right
        exact ⟨p, hm, he⟩
    · have ht : tick cfg env s = (s1, o1) := by
        unfold tick
        rw [hnp]
      rw [ht]
      left
      exact hc1

/-- Witness for C2: a steady cache-hit tick (manual navigation, nothing
pending, cursor 0 with f0 already served) performs no load and re-emits the
cached XYZ record. -/
theorem C2_witness :
    (tick cfgMixed envMixed stHit).2.load_attempts = [] ∧
    getEmit (tick cfgMixed envMixed stHit).2 Kind.xyz = some (getCache stHit Kind.xyz) :=
  have h := C2_amended_cache.1 cfgMixed envMixed stHit (by decide) (by decide)
    (by decide) (by decide) (by decide) (by decide) (Or.inl rfl)
  ⟨h.1, h.2.1 Kind.xyz (by decide)⟩

/-- C7 amended: with auto-publish off and no publish request pending, a tick
emits nothing and performs no load.  When a publish request is pending, the
next tick loads at the navigated index (every enabled kind is attempted
against Sequence[index], provided no decode throws) only if the navigation
phase does not abort at a boundary clamp and the Sequence is non-empty; and
if the navigated index equals previous_index the tick re-emits the cached
records without any load. -/
theorem C7_amended_publish_gate :
    (∀ (cfg : Config) (env : Env) (s : PCDState),
      cfg.prop_auto_publish_cloud = false → s.publish_cloud_flag = false →
      (tick cfg env s).2.out_xyz = none ∧
      (tick cfg env s).2.out_xyzrgb = none ∧
      (tick cfg env s).2.out_xyzsift = none ∧
      (tick cfg env s).2.load_attempts = []) ∧
    (∀ (cfg : Config) (env : Env) (s s1 : PCDState) (o1 : TickOutput),
      s.publish_cloud_flag = true → navPhase cfg env s = (s1, o1, false) →
      s1.files ≠ [] → s1.index ≠ s1.previous_index →
      (∀ k ∈ enabledKinds cfg, env.load (s1.files.getD s1.index.toNat "") k ≠ .exc) →
      (tick cfg env s).2.load_attempts =
        o1.load_attempts ++ (enabledKinds cfg).map
          fun k => (s1.files.getD s1.index.toNat "", k)) ∧
    (∀ (cfg : Config) (env : Env) (s s1 : PCDState) (o1 : TickOutput),
      s.publish_cloud_flag = true → navPhase cfg env s = (s1, o1, false) →
      s1.files ≠ [] → s1.index = s1.previous_index →
      (tick cfg env s).2.load_attempts = o1.load_attempts ∧
      ∀ k, k ∈ enabledKinds cfg → getEmit (tick cfg env s).2 k = some (getCache s1 k)) := by
  refine ⟨?_, ?_, ?_⟩
  · intro cfg env s hap hpub
    rcases hnp : navPhase cfg env s with ⟨s1, o1, ab⟩
    have hout := navPhase_out cfg env s
    rw [hnp] at hout
    have hp1 : s1.publish_cloud_flag = false := by
      have hx := navPhase_publish cfg env s
      rw [hnp] at hx
      rw [hx]
      exact hpub
    cases ab
    · have ht : tick cfg env s = afterNav cfg env s1 o1 := by
        unfold tick
        rw [hnp]
      have hA : afterNav cfg env s1 o1 = (s1, o1) := by
        unfold afterNav
        by_cases hemp : s1.files.isEmpty = true
        · rw [if_pos hemp]
        · rw [if_neg hemp, if_pos (by rw [hap, hp1]; rfl)]
      rw [ht, hA]
      exact ⟨hout.1, hout.2.1, hout.2.2.1, hout.2.2.2⟩
    · have ht : tick cfg env s = (s1, o1) := by
        unfold tick
        rw [hnp]
      rw [ht]
      exact ⟨hout.1, hout.2.1, hout.2.2.1, hout.2.2.2⟩
  · intro cfg env s s1 o1 hpub hnp hne hneq hnoexc
    have ht : tick cfg env s = afterNav cfg env s1 o1 := by
      unfold tick
      rw [hnp]
    have hp1 : s1.publish_cloud_flag = true := by
      have hx := navPhase_publish cfg env s
      rw [hnp] at hx
      rw [hx]
      exact hpub
    have hA : afterNav cfg env s1 o1 =
        loadKinds env (s1.files.getD s1.index.toNat "") s1.index (enabledKinds cfg)
          { s1 with publish_cloud_flag := false } o1 := by
      unfold afterNav
      rw [if_neg (by simpa [List.isEmpty_iff] using hne),
        if_neg (by rw [hp1]; simp), if_neg hneq]
    rw [ht, hA]
    exact loadKinds_attempts_noexc env _ _ _ hnoexc _ _
  · intro cfg env s s1 o1 hpub hnp hne hhit
    have ht : tick cfg env s = afterNav cfg env s1 o1 := by
      unfold tick
      rw [hnp]
    have hp1 : s1.publish_cloud_flag = true := by
      have hx := navPhase_publish cfg env s
      rw [hnp] at hx
      rw [hx]
      exact hpub
    have hA : afterNav cfg env s1 o1 =
        ({ s1 with publish_cloud_flag := false },
          emitCaches cfg { s1 with publish_cloud_flag := false } o1) := by
      unfold afterNav
      rw [if_neg (by simpa [List.isEmpty_iff] using hne),
        if_neg (by rw [hp1]; simp), if_pos hhit]
    rw [ht, hA]
    constructor
    · exact (emitCaches_meta cfg _ o1).2.2
    · intro k hk
      rw [emitCaches_getEmit cfg _ o1 k hk, getCache_publish]

/-- Witness for C7: in the manual scenario D cache-hit state (f0 served at
cursor 0, publish request pending), the publishing tick performs no load. -/
theorem C7_witness :
    (tick cfgDManual envOne (onPublishCloud stDM1)).2.load_attempts =
      ((navPhase cfgDManual envOne (onPublishCloud stDM1)).2.1).load_attempts :=
  (C7_amended_publish_gate.2.2 cfgDManual envOne (onPublishCloud stDM1)
      (navPhase cfgDManual envOne (onPublishCloud stDM1)).1
      (navPhase cfgDManual envOne (onPublishCloud stDM1)).2.1
      rfl (by decide) (by decide) (by decide)).1

/-- C1 amended: an I/O exception thrown while loading one record kind is
caught (the embedding of the load phase returns normally), but it aborts
the remaining load phase of that tick instead of skipping only that kind:
the kinds processed before the throwing one keep their effect, the
throwing kind is recorded as attempted, and the kinds after it are not
processed at all. -/
theorem C1_amended_exc_stops (env : Env) (path : String) (idx : Int)
    (pre : List Kind) (k0 : Kind) (post : List Kind)
    (h0 : env.load path k0 = .exc) (hpre : ∀ k ∈ pre, env.load path k ≠ .exc)
    (s : PCDState) (o : TickOutput) :
    loadKinds env path idx (pre ++ k0 :: post) s o =
      ((loadKinds env path idx pre s o).1,
        { (loadKinds env path idx pre s o).2 with
            load_attempts :=
              (loadKinds env path idx pre s o).2.load_attempts ++ [(path, k0)] }) := by
  induction pre generalizing s o with
  | nil => simp [loadKinds, h0]
  | cons p pre ih =>
    have hp : env.load path p ≠ .exc := hpre p (by simp)
    have hpre2 : ∀ k ∈ pre, env.load path k ≠ .exc := fun k hk => hpre k (by simp [hk])
    simp only [List.cons_append, loadKinds]
    cases hl : env.load path p with
    | exc => exact absurd hl hp
    | fail => exact ih hpre2 _ _
    | ok c => exact ih hpre2 _ _

/-- Witness for C1: with the kind list [xyzsift, xyz, xyzrgb] against f0
(xyzsift fails, xyz throws), processing stops right after the xyz attempt
and xyzrgb is never reached. -/
theorem C1_witness :
    loadKinds envExc "f0" 0 ([Kind.xyzsift] ++ Kind.xyz :: [Kind.xyzrgb])
        (onInit false) emptyOutput =
      ((loadKinds envExc "f0" 0 [Kind.xyzsift] (onInit false) emptyOutput).1,
        { (loadKinds envExc "f0" 0 [Kind.xyzsift] (onInit false) emptyOutput).2 with
            load_attempts :=
              (loadKinds envExc "f0" 0 [Kind.xyzsift]
                  (onInit false) emptyOutput).2.load_attempts ++ [("f0", Kind.xyz)] }) :=
  C1_amended_exc_stops envExc "f0" 0 [Kind.xyzsift] Kind.xyz [Kind.xyzrgb]
    (by decide) (by decide) (onInit false) emptyOutput

end PCDSeq
